import Mathlib

/-!
# Verification of the FocusVault client-side fetch cache and session coordinator

Shallow embedding of `src/frontend/src/hooks/useApiCache.js` (the generic
cache-and-cancel hook) and of the `StudyProvider` session coordinator
(`src/unnamed/part_000`).  The JavaScript is single-threaded and event-loop
driven, so each operation is embedded as a pure state transformer; the
outcome of an awaited network call is an explicit parameter of the resolution
step (`FetchOutcome` / `ApiResult`), and cancellation of AbortControllers is
tracked as a list of aborted controller identities.
-/

set_option autoImplicit false

namespace FocusVault

/-- `CACHE_DURATION = 5 * 60 * 1000` ms (useApiCache.js line 4). -/
def CACHE_DURATION : Nat := 5 * 60 * 1000

/-- One entry of the module-level `cache` map: `{ data, timestamp }`
(useApiCache.js lines 36-39). -/
structure CacheEntry (V : Type) where
  data : V
  timestamp : Nat
  deriving DecidableEq, Repr

/-- The module-level `cache = new Map()` (useApiCache.js line 3), embedded as
an association list from string keys to entries. -/
abbrev Cache (V : Type) := List (String × CacheEntry V)

/-- `cache.get(key)` on the association list. -/
def cacheGet {V : Type} : Cache V → String → Option (CacheEntry V)
  | [], _ => none
  | (k, e) :: rest, key => if k = key then some e else cacheGet rest key

/-- `cache.delete(key)`: removes the entry for `key` (a JS `Map` has at most
one entry per key; removing every pair with that key is equivalent). -/
def cacheDelete {V : Type} : Cache V → String → Cache V
  | [], _ => []
  | (k, e) :: rest, key =>
      if k = key then cacheDelete rest key else (k, e) :: cacheDelete rest key

/-- `cache.set(key, entry)`: replaces any existing entry for `key`. -/
def cacheSet {V : Type} (c : Cache V) (key : String) (e : CacheEntry V) : Cache V :=
  (key, e) :: cacheDelete c key

/-- The per-hook-instance React state of `useApiCache` (lines 7-10):
`data` (initially `null`), `loading` (initially `true`), `error` (initially
`null`), and `abortControllerRef.current` (initially `null`), the latter
embedded as the identity of the instance's current AbortController. -/
structure HookState (V E : Type) where
  data : Option V
  loading : Bool
  error : Option E
  abortCtrl : Option Nat
  deriving DecidableEq, Repr

/-- The initial hook state: `useState(null)`, `useState(true)`,
`useState(null)`, `useRef(null)`. -/
def initialHookState (V E : Type) : HookState V E :=
  { data := none, loading := true, error := none, abortCtrl := none }

/-- Outcome of the awaited `fetcher(signal)` call: resolves with a value,
rejects with an ordinary error, or rejects with `err.name === "AbortError"`. -/
inductive FetchOutcome (V E : Type) where
  | success (v : V)
  | failure (e : E)
  | aborted
  deriving DecidableEq, Repr

/-- What the synchronous prefix of `fetchData` did: returned early from the
cache (line 19), or invoked `fetcher` (line 33). -/
inductive Phase1Result (V : Type) where
  | cacheHit (v : V)
  | fetchStarted
  deriving DecidableEq, Repr

/-- The synchronous prefix of `fetchData` (useApiCache.js lines 14-33), up to
the `await`: check the cache (lines 15-20) and on a hit set `data` and
`loading := false` and return; otherwise abort the previous controller
(lines 23-25, appending its identity to the global list `abortedCtrls` of
aborted controllers), install a fresh controller `newCtrl` (line 27), set
`loading := true`, `error := null` (lines 30-31), and call the fetcher. -/
def fetchDataStart {V E : Type} (c : Cache V) (key : String) (now : Nat)
    (st : HookState V E) (newCtrl : Nat) (abortedCtrls : List Nat) :
    HookState V E × List Nat × Phase1Result V :=
  match cacheGet c key with
  | some cached =>
      if now - cached.timestamp < CACHE_DURATION then
        ({ st with data := some cached.data, loading := false },
         abortedCtrls, Phase1Result.cacheHit cached.data)
      else
        ({ st with loading := true, error := none, abortCtrl := some newCtrl },
         (match st.abortCtrl with
          | some a => a :: abortedCtrls
          | none => abortedCtrls),
         Phase1Result.fetchStarted)
  | none =>
      ({ st with loading := true, error := none, abortCtrl := some newCtrl },
       (match st.abortCtrl with
        | some a => a :: abortedCtrls
        | none => abortedCtrls),
       Phase1Result.fetchStarted)

/-- The resumption of `fetchData` after the `await` (lines 33-49): on success
store `{data := result, timestamp := Date.now()}` in the cache and set `data`
(lines 36-41); on a non-abort rejection set `error` (lines 43-46); on an
`AbortError` the catch block does nothing; in every case the `finally` block
sets `loading := false` (line 48). -/
def fetchDataResolve {V E : Type} (c : Cache V) (key : String)
    (st : HookState V E) (now : Nat) :
    FetchOutcome V E → Cache V × HookState V E
  | FetchOutcome.success v =>
      (cacheSet c key ⟨v, now⟩, { st with data := some v, loading := false })
  | FetchOutcome.failure e =>
      (c, { st with error := some e, loading := false })
  | FetchOutcome.aborted =>
      (c, { st with loading := false })

/-- The result of one complete run of `fetchData` with no interleaving. -/
structure RunResult (V E : Type) where
  cache : Cache V
  state : HookState V E
  abortedCtrls : List Nat
  invokedFetch : Bool
  deriving DecidableEq, Repr

/-- One complete run of `fetchData`: the synchronous prefix followed, when a
fetch was issued, by the resolution of that fetch with the given `outcome` at
`resolveTime`.  `invokedFetch` records whether `fetcher` was called. -/
def fetchDataRun {V E : Type} (c : Cache V) (key : String) (now : Nat)
    (st : HookState V E) (newCtrl : Nat) (abortedCtrls : List Nat)
    (outcome : FetchOutcome V E) (resolveTime : Nat) : RunResult V E :=
  match fetchDataStart c key now st newCtrl abortedCtrls with
  | (st1, ab1, Phase1Result.cacheHit _) =>
      { cache := c, state := st1, abortedCtrls := ab1, invokedFetch := false }
  | (st1, ab1, Phase1Result.fetchStarted) =>
      let r := fetchDataResolve c key st1 resolveTime outcome
      { cache := r.1, state := r.2, abortedCtrls := ab1, invokedFetch := true }

/-- `invalidateCache` (useApiCache.js lines 61-63): `cache.delete(key)`.  The
closure touches only the shared cache map — not the hook state and not the
abort controller of any in-flight request. -/
def invalidateCache {V : Type} (c : Cache V) (key : String) : Cache V :=
  cacheDelete c key

/-! ## The StudyProvider session coordinator (src/unnamed/part_000) -/

/-- A timetable object; `isActive` is the flag scanned at line 85. -/
structure Timetable where
  name : String
  isActive : Bool
  deriving DecidableEq, Repr

/-- The `studyData` state object of the provider (part_000 lines 16-26). -/
structure StudyData where
  todayReading : Nat
  studySessions : Nat
  currentStreak : Nat
  highestStreak : Nat
  weeklyData : List Nat
  timetables : List Timetable
  activeTimetable : Option Timetable
  notes : List String
  completedSubjects : List String
  deriving DecidableEq, Repr

/-- The initial `studyData` (part_000 lines 16-26). -/
def initialStudyData : StudyData :=
  { todayReading := 0, studySessions := 0, currentStreak := 0,
    highestStreak := 0, weeklyData := [], timetables := [],
    activeTimetable := none, notes := [], completedSubjects := [] }

/-- The current-session record (`currentSession`), with the fields `endSession`
reads (part_000 lines 197, 200). -/
structure Session where
  currentSubject : String
  startTime : Nat
  status : String
  deriving DecidableEq, Repr

/-- Result of one awaited `axios` call made by the provider: payload or
rejection (network/HTTP error). -/
inductive ApiResult (α : Type) where
  | ok (val : α)
  | err (msg : String)
  deriving DecidableEq, Repr

/-- The provider's mutable world: its React state (part_000 lines 16-31)
together with the module-level cache map its `invalidateCache` closures act
on.  `lastFetch` is initialized to `0` (line 31). -/
structure ProviderState (V : Type) where
  studyData : StudyData
  currentSession : Option Session
  isStudying : Bool
  loadingNotes : Bool
  lastFetch : Nat
  cache : Cache V
  deriving DecidableEq, Repr

/-- The provider's initial state (part_000 lines 16-31): empty study data, no
current session, not studying, notes not loading, `lastFetch = 0`; the shared
module-level cache `c` is whatever it currently holds. -/
def initialProviderState {V : Type} (c : Cache V) : ProviderState V :=
  { studyData := initialStudyData, currentSession := none, isStudying := false,
    loadingNotes := false, lastFetch := 0, cache := c }

/-- `fetchDashboardAndTimetables` (part_000 lines 95-103): if
`now - lastFetch < 2000` return (rate-limited no-op); otherwise
`setLastFetch(now)`, `invalidateDashboard()` (delete the `"dashboard"` cache
entry) and `invalidateTimetables()` (delete the `"timetables"` entry). -/
def fetchDashboardAndTimetables {V : Type} (st : ProviderState V) (now : Nat) :
    ProviderState V :=
  if now - st.lastFetch < 2000 then st
  else
    { st with
      lastFetch := now,
      cache := invalidateCache (invalidateCache st.cache "dashboard") "timetables" }

/-- `fetchCompletedSubjects` (part_000 lines 117-131): on success set
`completedSubjects := res.data || []`; on failure log and reset
`completedSubjects := []`. -/
def fetchCompletedSubjects {V : Type} (st : ProviderState V)
    (res : ApiResult (Option (List String))) : ProviderState V :=
  match res with
  | ApiResult.ok data =>
      { st with studyData := { st.studyData with completedSubjects := data.getD [] } }
  | ApiResult.err _ =>
      { st with studyData := { st.studyData with completedSubjects := [] } }

/-- The synchronous prefix of `fetchNotes` (part_000 line 219):
`setLoadingNotes(true)` before the awaited request. -/
def fetchNotesStart {V : Type} (st : ProviderState V) : ProviderState V :=
  { st with loadingNotes := true }

/-- The resumption of `fetchNotes` after the `await` (part_000 lines 221-227):
on success store the notes; on failure only log; in both cases the `finally`
block runs `setLoadingNotes(false)`. -/
def fetchNotesFinish {V : Type} (st : ProviderState V)
    (res : ApiResult (List String)) : ProviderState V :=
  match res with
  | ApiResult.ok ns =>
      { st with studyData := { st.studyData with notes := ns }, loadingNotes := false }
  | ApiResult.err _ =>
      { st with loadingNotes := false }

/-- One complete run of `fetchNotes` (part_000 lines 217-228) with the given
outcome of the awaited request. -/
def fetchNotes {V : Type} (st : ProviderState V) (res : ApiResult (List String)) :
    ProviderState V :=
  fetchNotesFinish (fetchNotesStart st) res

/-- `endSession` (part_000 lines 193-215): inside one `try`, (a) POST the
completed session (reading `currentSession.currentSubject` — with no current
session this throws and is caught, leaving state unchanged), (b) DELETE the
current-session state, (c) `setCurrentSession(null)`; `setIsStudying(false)`,
(d) `fetchDashboardAndTimetables()` and `fetchCompletedSubjects()`.  Any
rejection jumps to the catch block, which only logs (line 213).  The returned
Boolean records whether the failure was logged. -/
def endSession {V : Type} (st : ProviderState V) (now : Nat)
    (postRes : ApiResult Unit) (delRes : ApiResult Unit)
    (completedRes : ApiResult (Option (List String))) : ProviderState V × Bool :=
  match st.currentSession with
  | none => (st, true)
  | some _ =>
      match postRes with
      | ApiResult.err _ => (st, true)
      | ApiResult.ok _ =>
          match delRes with
          | ApiResult.err _ => (st, true)
          | ApiResult.ok _ =>
              let st1 := { st with currentSession := none, isStudying := false }
              let st2 := fetchDashboardAndTimetables st1 now
              (fetchCompletedSubjects st2 completedRes, false)

/-! ## Traces of operations on the shared cache map

The single-threaded event loop interleaves complete `fetchData` runs and
`invalidateCache` calls; each is atomic with respect to the cache map. -/

/-- One atomic operation on the module-level cache: a complete `fetchData`
run (with its key, start time, hook state, fresh controller, fetch outcome
and resolution time) or an `invalidateCache` call. -/
inductive CacheOp (V E : Type) where
  | fetchOp (key : String) (startTime : Nat) (st : HookState V E)
      (newCtrl : Nat) (outcome : FetchOutcome V E) (resolveTime : Nat)
  | invalidateOp (key : String)

/-- The effect of one operation on the cache map. -/
def applyOp {V E : Type} (c : Cache V) : CacheOp V E → Cache V
  | CacheOp.fetchOp key t st ctrl out rt =>
      (fetchDataRun c key t st ctrl [] out rt).cache
  | CacheOp.invalidateOp key => invalidateCache c key

/-- The cache after a sequence of operations. -/
def runOps {V E : Type} (c : Cache V) : List (CacheOp V E) → Cache V
  | [] => c
  | op :: ops => runOps (applyOp c op) ops

/-- Whether `op` is a fetch for key `k` that completed successfully with
exactly the value and resolution time recorded in entry `e`. -/
def isSuccessWrite {V E : Type} [DecidableEq V] (op : CacheOp V E) (k : String)
    (e : CacheEntry V) : Bool :=
  match op with
  | CacheOp.fetchOp key _ _ _ (FetchOutcome.success v) rt =>
      decide (key = k) && decide (v = e.data) && decide (rt = e.timestamp)
  | _ => false

/-- Whether some operation of `ops` successfully wrote entry `e` under `k`. -/
def anySuccessWrite {V E : Type} [DecidableEq V] (ops : List (CacheOp V E))
    (k : String) (e : CacheEntry V) : Bool :=
  ops.any fun op => isSuccessWrite op k e

/-! ## Basic lemmas about the cache map -/

theorem cacheGet_cacheDelete_self {V : Type} (c : Cache V) (key : String) :
    cacheGet (cacheDelete c key) key = none := by
  induction c with
  | nil => rfl
  | cons p rest ih =>
      obtain ⟨k, e⟩ := p
      by_cases h : k = key
      · simp [cacheDelete, h, ih]
      · simp [cacheDelete, cacheGet, h, ih]

theorem cacheGet_cacheDelete_ne {V : Type} (c : Cache V) (key k : String)
    (h : k ≠ key) : cacheGet (cacheDelete c key) k = cacheGet c k := by
  induction c with
  | nil => rfl
  | cons p rest ih =>
      obtain ⟨k0, e⟩ := p
      by_cases h0 : k0 = key
      · subst h0
        have hk : ¬ k0 = k := fun hh => h hh.symm
        simp [cacheDelete, cacheGet, hk, ih]
      · by_cases h1 : k0 = k
        · subst h1
          simp [cacheDelete, cacheGet, h0]
        · simp [cacheDelete, cacheGet, h0, h1, ih]

theorem cacheGet_cacheSet_self {V : Type} (c : Cache V) (key : String)
    (e : CacheEntry V) : cacheGet (cacheSet c key e) key = some e := by
  simp [cacheSet, cacheGet]

theorem cacheGet_cacheSet_ne {V : Type} (c : Cache V) (key k : String)
    (e : CacheEntry V) (h : k ≠ key) :
    cacheGet (cacheSet c key e) k = cacheGet c k := by
  have hk : key ≠ k := fun hh => h hh.symm
  simp [cacheSet, cacheGet, hk, cacheGet_cacheDelete_ne c key k h]

/-- A fetch that fails with an ordinary error leaves the cache map exactly as
it was. -/
theorem fetchDataRun_cache_failure {V E : Type} (c : Cache V) (key : String)
    (t : Nat) (st : HookState V E) (ctrl : Nat) (ab : List Nat) (e : E)
    (rt : Nat) :
    (fetchDataRun c key t st ctrl ab (FetchOutcome.failure e) rt).cache = c := by
  cases hget : cacheGet c key with
  | none => simp [fetchDataRun, fetchDataStart, hget, fetchDataResolve]
  | some cached =>
      by_cases hage : t - cached.timestamp < CACHE_DURATION <;>
        simp [fetchDataRun, fetchDataStart, hget, hage, fetchDataResolve]

/-- A fetch that is cancelled leaves the cache map exactly as it was. -/
theorem fetchDataRun_cache_aborted {V E : Type} (c : Cache V) (key : String)
    (t : Nat) (st : HookState V E) (ctrl : Nat) (ab : List Nat) (rt : Nat) :
    (fetchDataRun c key t st ctrl ab FetchOutcome.aborted rt).cache = c := by
  cases hget : cacheGet c key with
  | none => simp [fetchDataRun, fetchDataStart, hget, fetchDataResolve]
  | some cached =>
      by_cases hage : t - cached.timestamp < CACHE_DURATION <;>
        simp [fetchDataRun, fetchDataStart, hget, hage, fetchDataResolve]

/-- A successful fetch either served the cache (leaving it as is) or stored
exactly its result under its key with the resolution time. -/
theorem fetchDataRun_cache_success {V E : Type} (c : Cache V) (key : String)
    (t : Nat) (st : HookState V E) (ctrl : Nat) (ab : List Nat) (v : V)
    (rt : Nat) :
    (fetchDataRun c key t st ctrl ab (FetchOutcome.success v) rt).cache = c ∨
    (fetchDataRun c key t st ctrl ab (FetchOutcome.success v) rt).cache =
      cacheSet c key ⟨v, rt⟩ := by
  cases hget : cacheGet c key with
  | none =>
      right
      simp [fetchDataRun, fetchDataStart, hget, fetchDataResolve]
  | some cached =>
      by_cases hage : t - cached.timestamp < CACHE_DURATION
      · left
        simp [fetchDataRun, fetchDataStart, hget, hage]
      · right
        simp [fetchDataRun, fetchDataStart, hget, hage, fetchDataResolve]

/-- Every entry visible after one operation was already there or is the
successful write of that operation. -/
theorem applyOp_provenance {V E : Type} [DecidableEq V] (c : Cache V)
    (op : CacheOp V E) (k : String) (e : CacheEntry V)
    (h : cacheGet (applyOp c op) k = some e) :
    cacheGet c k = some e ∨ isSuccessWrite op k e = true := by
  cases op with
  | invalidateOp key =>
      by_cases hk : k = key
      · subst hk
        rw [show applyOp c (CacheOp.invalidateOp (E := E) k) = cacheDelete c k from rfl,
          cacheGet_cacheDelete_self] at h
        exact absurd h (by simp)
      · left
        rw [show applyOp c (CacheOp.invalidateOp (E := E) key) = cacheDelete c key from rfl,
          cacheGet_cacheDelete_ne c key k hk] at h
        exact h
  | fetchOp key t st ctrl out rt =>
      cases out with
      | failure e' =>
          left
          simp only [applyOp] at h
          rw [fetchDataRun_cache_failure] at h
          exact h
      | aborted =>
          left
          simp only [applyOp] at h
          rw [fetchDataRun_cache_aborted] at h
          exact h
      | success v =>
          simp only [applyOp] at h
          rcases fetchDataRun_cache_success c key t st ctrl [] v rt with hc | hc
          · left
            rw [hc] at h
            exact h
          · rw [hc] at h
            by_cases hk : k = key
            · subst hk
              rw [cacheGet_cacheSet_self] at h
              obtain rfl : e = ⟨v, rt⟩ := (Option.some.inj h).symm
              right
              simp [isSuccessWrite]
            · left
              rw [cacheGet_cacheSet_ne c key k _ hk] at h
              exact h

/-- Every entry visible after a sequence of operations was in the initial
cache or was successfully written by one of the operations. -/
theorem runOps_provenance {V E : Type} [DecidableEq V] (ops : List (CacheOp V E))
    (c : Cache V) (k : String) (e : CacheEntry V)
    (h : cacheGet (runOps c ops) k = some e) :
    cacheGet c k = some e ∨ anySuccessWrite ops k e = true := by
  induction ops generalizing c with
  | nil => left; exact h
  | cons op ops ih =>
      simp only [runOps] at h
      rcases ih (applyOp c op) h with h1 | h1
      · rcases applyOp_provenance c op k e h1 with h2 | h2
        · left; exact h2
        · right
          simp [anySuccessWrite, List.any_cons, h2]
      · right
        simp only [anySuccessWrite, List.any_cons] at h1 ⊢
        simp [h1]

/-! ## Claim theorems -/

/-- **C1.** For every key `K` and every read of `K` issued while a cache entry
for `K` exists whose age is strictly less than the TTL (5 minutes = 300000 ms),
the read returns the previously cached value with `loading = false` and does
not invoke `fetchFn`: the run leaves the cache untouched, sets the hook's
`data` to the cached value and `loading` to `false`, aborts nothing, and never
calls the fetcher. -/
theorem cache_hit_serves_cached_value_without_fetch {V E : Type}
    (c : Cache V) (key : String) (now : Nat) (st : HookState V E)
    (newCtrl : Nat) (ab : List Nat) (outcome : FetchOutcome V E)
    (rt : Nat) (e : CacheEntry V)
    (hget : cacheGet c key = some e)
    (hlive : now - e.timestamp < CACHE_DURATION) :
    fetchDataRun c key now st newCtrl ab outcome rt =
      { cache := c,
        state := { st with data := some e.data, loading := false },
        abortedCtrls := ab, invokedFetch := false } := by
  simp [fetchDataRun, fetchDataStart, hget, hlive]

/-- Witness for C1: a read of `"dashboard"` at time 200 against an entry
cached at time 100 is served from the cache without invoking the fetcher. -/
theorem cache_hit_serves_cached_value_without_fetch_witness :
    fetchDataRun [("dashboard", (⟨42, 100⟩ : CacheEntry Nat))] "dashboard" 200
        (initialHookState Nat String) 1 [] (FetchOutcome.success 7) 300 =
      { cache := [("dashboard", ⟨42, 100⟩)],
        state := { initialHookState Nat String with data := some 42, loading := false },
        abortedCtrls := [], invokedFetch := false } :=
  cache_hit_serves_cached_value_without_fetch _ _ _ _ _ _ _ _ ⟨42, 100⟩
    (by decide) (by decide)

/-- **C3.** If an invocation of `refreshDashboardAndTimetables` at `t1` is
accepted, then: the rate-limiting timestamp becomes `t1` and both cache
entries are invalidated; a second invocation at `t2` with `t2 - t1 < 2000` is
a no-op (state, cache and timestamp all unchanged, so the entries are
invalidated only once); and an invocation at `t3` with `t3 - t1 ≥ 2000` is
accepted again, invalidating both entries and setting the timestamp to `t3`. -/
theorem refresh_rate_limited_within_2000ms {V : Type} (st : ProviderState V)
    (t1 t2 t3 : Nat)
    (h1 : ¬ t1 - st.lastFetch < 2000)
    (h2 : t2 - t1 < 2000)
    (h3 : ¬ t3 - t1 < 2000) :
    (fetchDashboardAndTimetables st t1).lastFetch = t1 ∧
    (fetchDashboardAndTimetables st t1).cache =
      invalidateCache (invalidateCache st.cache "dashboard") "timetables" ∧
    fetchDashboardAndTimetables (fetchDashboardAndTimetables st t1) t2 =
      fetchDashboardAndTimetables st t1 ∧
    (fetchDashboardAndTimetables (fetchDashboardAndTimetables st t1) t3).lastFetch = t3 ∧
    (fetchDashboardAndTimetables (fetchDashboardAndTimetables st t1) t3).cache =
      invalidateCache
        (invalidateCache (fetchDashboardAndTimetables st t1).cache "dashboard")
        "timetables" := by
  simp [fetchDashboardAndTimetables, h1, h2, h3]

/-- Witness for C3: accepted at t1 = 2000 (from `lastFetch = 0`), rejected at
t2 = 3000, accepted again at t3 = 4000. -/
theorem refresh_rate_limited_within_2000ms_witness :
    fetchDashboardAndTimetables
        (fetchDashboardAndTimetables
          (initialProviderState [("dashboard", (⟨42, 100⟩ : CacheEntry Nat))]) 2000)
        3000 =
      fetchDashboardAndTimetables
        (initialProviderState [("dashboard", (⟨42, 100⟩ : CacheEntry Nat))]) 2000 :=
  (refresh_rate_limited_within_2000ms
    (initialProviderState [("dashboard", ⟨42, 100⟩)]) 2000 3000 4000
    (by decide) (by decide) (by decide)).2.2.1

/-- **C5.** `invalidate(K)` removes the cached entry for `K` unconditionally
(whatever its age), leaves every other key's entry untouched, and a read of
`K` issued immediately afterwards misses the cache and invokes `fetchFn`.
(The source `invalidateCache` body is a single `cache.delete(key)`, so it
touches neither the hook state nor any in-flight request's controller.) -/
theorem invalidate_forces_refetch {V E : Type} (c : Cache V) (key : String)
    (now : Nat) (st : HookState V E) (newCtrl : Nat) (ab : List Nat)
    (outcome : FetchOutcome V E) (rt : Nat) :
    cacheGet (invalidateCache c key) key = none ∧
    (∀ k, k ≠ key → cacheGet (invalidateCache c key) k = cacheGet c k) ∧
    (fetchDataRun (invalidateCache c key) key now st newCtrl ab outcome rt).invokedFetch
      = true := by
  refine ⟨cacheGet_cacheDelete_self c key, ?_, ?_⟩
  · exact fun k hk => cacheGet_cacheDelete_ne c key k hk
  · have h0 : cacheGet (invalidateCache c key) key = none :=
      cacheGet_cacheDelete_self c key
    simp [fetchDataRun, fetchDataStart, h0]

/-- Witness for C5: invalidating `"dashboard"` while its entry is fresh
removes it, leaves `"timetables"` alone, and the next read fetches. -/
theorem invalidate_forces_refetch_witness :
    cacheGet
        (invalidateCache
          [("dashboard", (⟨42, 100⟩ : CacheEntry Nat)), ("timetables", ⟨7, 100⟩)]
          "dashboard")
        "timetables" =
      cacheGet
        [("dashboard", (⟨42, 100⟩ : CacheEntry Nat)), ("timetables", ⟨7, 100⟩)]
        "timetables" :=
  (invalidate_forces_refetch
    (E := String)
    [("dashboard", ⟨42, 100⟩), ("timetables", ⟨7, 100⟩)] "dashboard" 101
    (initialHookState Nat String) 1 [] (FetchOutcome.success 7) 102).2.1
    "timetables" (by decide)

/-- **C10.** From the provider's initial state (whose `lastFetch` is
initialized to `0`, not to the creation time), the first invocation of
`refreshDashboardAndTimetables` at any time `now ≥ 2000` is accepted: it sets
the timestamp to `now` and deletes both the `"dashboard"` and `"timetables"`
cache entries. -/
theorem first_refresh_always_accepted {V : Type} (c : Cache V) (now : Nat)
    (h : 2000 ≤ now) :
    fetchDashboardAndTimetables (initialProviderState c) now =
      { initialProviderState c with
        lastFetch := now,
        cache := invalidateCache (invalidateCache c "dashboard") "timetables" } ∧
    cacheGet (fetchDashboardAndTimetables (initialProviderState c) now).cache
      "dashboard" = none ∧
    cacheGet (fetchDashboardAndTimetables (initialProviderState c) now).cache
      "timetables" = none := by
  have hcond : ¬ now - (initialProviderState c).lastFetch < 2000 := by
    simp [initialProviderState]
    omega
  refine ⟨?_, ?_, ?_⟩
  · simp [fetchDashboardAndTimetables, hcond, initialProviderState]
    intro hlt
    exact absurd hlt (by omega)
  · simp [fetchDashboardAndTimetables, hcond, invalidateCache]
    rw [cacheGet_cacheDelete_ne _ _ _ (by decide)]
    exact cacheGet_cacheDelete_self c "dashboard"
  · simp [fetchDashboardAndTimetables, hcond, invalidateCache,
      cacheGet_cacheDelete_self]

/-- **C6.** If the create-completed-session call or the delete-current-state
call of `endSession` fails, the whole invocation leaves the provider state
exactly as it was (in particular `currentSession` and `isStudying` keep their
pre-call values, no cache entry is invalidated, `lastFetch` is untouched) and
the failure is only logged (the returned flag). -/
theorem endSession_failure_preserves_state {V : Type} (st : ProviderState V)
    (now : Nat) (m : String) (delRes : ApiResult Unit)
    (completedRes : ApiResult (Option (List String))) :
    endSession st now (ApiResult.err m) delRes completedRes = (st, true) ∧
    endSession st now (ApiResult.ok ()) (ApiResult.err m) completedRes = (st, true) := by
  refine ⟨?_, ?_⟩ <;>
    · cases hs : st.currentSession <;> simp [endSession, hs]

/-- **C7.** A failing `fetchCompletedSubjects` resets the local
completed-subjects list to the empty list (whatever it held before), while a
failing `fetchNotes` — like the other reads — preserves the previously held
data: the notes list is exactly unchanged (only the loading flag is
cleared). -/
theorem completedSubjects_reset_notes_preserved_on_failure {V : Type}
    (st : ProviderState V) (m : String) :
    fetchCompletedSubjects st (ApiResult.err m) =
      { st with studyData := { st.studyData with completedSubjects := [] } } ∧
    (fetchCompletedSubjects st (ApiResult.err m)).studyData.completedSubjects = [] ∧
    fetchNotes st (ApiResult.err m) = { st with loadingNotes := false } ∧
    (fetchNotes st (ApiResult.err m)).studyData.notes = st.studyData.notes := by
  refine ⟨rfl, rfl, rfl, rfl⟩

/-- **C8.** `fetchNotes` raises `loadingNotes` to `true` for the duration of
the awaited call (the synchronous prefix sets it) and lowers it to `false`
after completion, on the success path and on the failure path alike (the
`finally` block). -/
theorem fetchNotes_loading_flag {V : Type} (st : ProviderState V)
    (res : ApiResult (List String)) (ns : List String) (m : String) :
    (fetchNotesStart st).loadingNotes = true ∧
    (fetchNotes st res).loadingNotes = false ∧
    (fetchNotes st (ApiResult.ok ns)).loadingNotes = false ∧
    (fetchNotes st (ApiResult.err m)).loadingNotes = false := by
  refine ⟨rfl, ?_, rfl, rfl⟩
  cases res <;> rfl

/-- Counterexample to **C2** as stated.  The claim says a cancelled fetch
performs no state change at all — `data`, `error` and `loading` are "left
exactly as they were".  Run `fetchData` from a hook state with
`loading = true` and `error = some "boom"` (e.g. the initial state after an
earlier failed fetch re-triggered by a dependency change), on an empty cache,
and let the fetch be aborted: the resulting state has `error = none` (cleared
by `setError(null)` at fetch start) and `loading = false` (set by the
`finally` block even for `AbortError`), so it differs from the pre-read
state. -/
theorem cancelled_fetch_no_state_change_counterexample :
    (fetchDataRun (V := Nat) (E := String) [] "dashboard" 0
        { data := none, loading := true, error := some "boom", abortCtrl := none }
        1 [] FetchOutcome.aborted 5).state ≠
      { data := none, loading := true, error := some "boom", abortCtrl := none } := by
  decide

/-- **C2 amended.** For a fetch that fails with the distinguished cancelled
reason (`AbortError`), the catch block performs no state change: the cache
entry for the key, the hook's `data`, and the aborted-controllers list are
left exactly as the fetch start left them, and the cancellation is never
surfaced as a user-visible error (`error` ends up `null`).  However the
scoped `finally` cleanup still sets `loading` to `false`, and `error` was
reset to `null` when the fetch began. -/
theorem cancelled_fetch_swallowed {V E : Type} (c : Cache V) (key : String)
    (now : Nat) (st : HookState V E) (newCtrl : Nat) (ab : List Nat) (rt : Nat)
    (hstart : (fetchDataStart c key now st newCtrl ab).2.2 = Phase1Result.fetchStarted) :
    fetchDataRun c key now st newCtrl ab FetchOutcome.aborted rt =
      { cache := c,
        state := { st with loading := false, error := none, abortCtrl := some newCtrl },
        abortedCtrls :=
          (match st.abortCtrl with
           | some a => a :: ab
           | none => ab),
        invokedFetch := true } := by
  cases hget : cacheGet c key with
  | none => simp [fetchDataRun, fetchDataStart, hget, fetchDataResolve]
  | some cached =>
      by_cases hage : now - cached.timestamp < CACHE_DURATION
      · exfalso
        simp [fetchDataStart, hget, hage] at hstart
      · simp [fetchDataRun, fetchDataStart, hget, hage, fetchDataResolve]

/-- Witness for the amended C2: a fetch for `"dashboard"` on an empty cache,
started from a state holding stale data, an old error, and a pending
controller 9, is aborted; the data and cache survive, the error is swallowed,
controller 9 was cancelled at start, and loading ends `false`. -/
theorem cancelled_fetch_swallowed_witness :
    fetchDataRun (V := Nat) (E := String) [] "dashboard" 0
        { data := some 3, loading := false, error := some "old", abortCtrl := some 9 }
        2 [] FetchOutcome.aborted 5 =
      { cache := [],
        state := { data := some 3, loading := false, error := none, abortCtrl := some 2 },
        abortedCtrls := [9], invokedFetch := true } :=
  cancelled_fetch_swallowed [] "dashboard" 0
    { data := some 3, loading := false, error := some "old", abortCtrl := some 9 }
    2 [] 5 (by decide)

/-- Counterexample to **C4** as stated.  The claim says starting a new fetch
for a key cancels any existing pending fetch for that same key, including
across two independent consumers.  But the abort controller lives in a
per-instance ref: consumer A starts a fetch for `"dashboard"` (controller 1,
in flight), then consumer B — its own hook state fresh, `abortCtrl = none` —
starts a fetch for the same key (controller 2): B's start issues a fetch yet
aborts nothing (the aborted-controllers list stays empty, so controller 1 is
not cancelled), leaving two fetches for `"dashboard"` in flight at once. -/
theorem cross_consumer_cancellation_counterexample :
    (fetchDataStart (V := Nat) (E := String) [] "dashboard" 0
        (initialHookState Nat String) 1 []).1.abortCtrl = some 1 ∧
    (fetchDataStart (V := Nat) (E := String) [] "dashboard" 0
        (initialHookState Nat String) 1 []).2.2 = Phase1Result.fetchStarted ∧
    (fetchDataStart (V := Nat) (E := String) [] "dashboard" 1
        (initialHookState Nat String) 2
        (fetchDataStart (V := Nat) (E := String) [] "dashboard" 0
          (initialHookState Nat String) 1 []).2.1).2.2 = Phase1Result.fetchStarted ∧
    (fetchDataStart (V := Nat) (E := String) [] "dashboard" 1
        (initialHookState Nat String) 2
        (fetchDataStart (V := Nat) (E := String) [] "dashboard" 0
          (initialHookState Nat String) 1 []).2.1).1.abortCtrl = some 2 ∧
    (fetchDataStart (V := Nat) (E := String) [] "dashboard" 1
        (initialHookState Nat String) 2
        (fetchDataStart (V := Nat) (E := String) [] "dashboard" 0
          (initialHookState Nat String) 1 []).2.1).2.1 = [] := by
  refine ⟨rfl, rfl, rfl, rfl, rfl⟩

/-- **C4 amended.** Each hook instance tracks at most one in-flight fetch of
its own, and starting a new fetch from an instance whose previous fetch is
still pending cancels that instance's previous controller before the new
fetch is issued; an instance with no pending fetch of its own cancels nothing
when it starts — in particular it does not cancel another consumer's pending
fetch for the same key, so in-flight fetches for one key from independent
consumers can coexist. -/
theorem fetch_cancels_own_previous_request {V E : Type} (c : Cache V)
    (key : String) (now : Nat) (st st2 : HookState V E) (newCtrl : Nat)
    (ab : List Nat) (a : Nat)
    (hmiss : cacheGet c key = none) :
    (st.abortCtrl = some a →
      fetchDataStart c key now st newCtrl ab =
        ({ st with loading := true, error := none, abortCtrl := some newCtrl },
         a :: ab, Phase1Result.fetchStarted)) ∧
    (st2.abortCtrl = none →
      fetchDataStart c key now st2 newCtrl ab =
        ({ st2 with loading := true, error := none, abortCtrl := some newCtrl },
         ab, Phase1Result.fetchStarted)) := by
  constructor
  · intro hprev
    simp [fetchDataStart, hmiss, hprev]
  · intro hnone
    simp [fetchDataStart, hmiss, hnone]

/-- Witness for the amended C4: an instance with pending controller 7 starts
a fresh fetch for `"dashboard"` on an empty cache; controller 7 is aborted
and controller 3 becomes the instance's single pending controller. -/
theorem fetch_cancels_own_previous_request_witness :
    fetchDataStart (V := Nat) (E := String) [] "dashboard" 0
        { data := none, loading := false, error := none, abortCtrl := some 7 } 3 [] =
      ({ data := none, loading := true, error := none, abortCtrl := some 3 },
       [7], Phase1Result.fetchStarted) :=
  (fetch_cancels_own_previous_request [] "dashboard" 0
    { data := none, loading := false, error := none, abortCtrl := some 7 }
    (initialHookState Nat String) 3 [] 7 (by decide)).1 (by decide)

/-- Witness for C10: the very first refresh at `now = 2000` is accepted even
though the provider was just created. -/
theorem first_refresh_always_accepted_witness :
    fetchDashboardAndTimetables
        (initialProviderState [("dashboard", (⟨42, 100⟩ : CacheEntry Nat))]) 2000 =
      { initialProviderState [("dashboard", (⟨42, 100⟩ : CacheEntry Nat))] with
        lastFetch := 2000,
        cache := invalidateCache
          (invalidateCache [("dashboard", ⟨42, 100⟩)] "dashboard") "timetables" } :=
  (first_refresh_always_accepted [("dashboard", ⟨42, 100⟩)] 2000 (by decide)).1

/-- **C9.** The shared cache map is written only on a successful fetch: a
fetch that fails or is cancelled leaves the cache exactly as it was (it never
creates, overwrites, or removes the entry for its key), and consequently, in
any interleaving of fetch runs and invalidations starting from the empty
cache, every entry present in the cache is the exact result (value and
resolution timestamp) of some successfully completed fetch for its key. -/
theorem cache_entries_only_from_successful_fetches {V E : Type} [DecidableEq V] :
    (∀ (c : Cache V) (key : String) (t : Nat) (st : HookState V E) (ctrl : Nat)
        (ab : List Nat) (e : E) (rt : Nat),
        (fetchDataRun c key t st ctrl ab (FetchOutcome.failure e) rt).cache = c) ∧
    (∀ (c : Cache V) (key : String) (t : Nat) (st : HookState V E) (ctrl : Nat)
        (ab : List Nat) (rt : Nat),
        (fetchDataRun c key t st ctrl ab FetchOutcome.aborted rt).cache = c) ∧
    (∀ (ops : List (CacheOp V E)) (k : String) (e : CacheEntry V),
        cacheGet (runOps [] ops) k = some e →
        anySuccessWrite ops k e = true) := by
  refine ⟨fetchDataRun_cache_failure, fetchDataRun_cache_aborted, ?_⟩
  intro ops k e h
  rcases runOps_provenance ops [] k e h with h1 | h1
  · exact absurd h1 (by simp [cacheGet])
  · exact h1

/-- Witness for C9: after the trace [failed fetch for `"dashboard"`,
successful fetch for `"dashboard"` resolving with 42 at time 5, cancelled
fetch for `"timetables"`], the entry found under `"dashboard"` is accounted
for by the successful fetch in the trace. -/
theorem cache_entries_only_from_successful_fetches_witness :
    anySuccessWrite
      [CacheOp.fetchOp (E := String) "dashboard" 0 (initialHookState Nat String) 1
        (FetchOutcome.failure "down") 2,
       CacheOp.fetchOp "dashboard" 3 (initialHookState Nat String) 2
        (FetchOutcome.success 42) 5,
       CacheOp.fetchOp "timetables" 6 (initialHookState Nat String) 3
        FetchOutcome.aborted 7]
      "dashboard" ⟨42, 5⟩ = true :=
  cache_entries_only_from_successful_fetches.2.2
    [CacheOp.fetchOp "dashboard" 0 (initialHookState Nat String) 1
      (FetchOutcome.failure "down") 2,
     CacheOp.fetchOp "dashboard" 3 (initialHookState Nat String) 2
      (FetchOutcome.success 42) 5,
     CacheOp.fetchOp "timetables" 6 (initialHookState Nat String) 3
      FetchOutcome.aborted 7]
    "dashboard" ⟨42, 5⟩ (by decide)

end FocusVault
